import Mathlib

/-!
Verification of `jlog` (package jlog, file src/jlog.go): process-level
logging initialization for a daemon.  The Go source is shallowly embedded:

* filesystem paths are modelled by `GoPath`, the cleaned form that
  `path/filepath.Join` / `Clean` produce (an absolute flag plus the list of
  path segments, with empty, `.` and `..` segments resolved as `Clean` does);
  raw strings from the environment are parsed with `parsePath`;
* the ambient process environment (`os.LookupEnv(xdgStateEnv)`,
  `os.UserHomeDir`) is a record `Env`;
* the filesystem is a record `FS` of existing directories, existing regular
  files, and permission-denial oracles; `os.MkdirAll` and `os.OpenFile`
  become pure functions threading `FS` (sequential semantics: the
  `os.IsExist` escape only fires in Go under a concurrent race, so in this
  sequential model `MkdirAll` never reports an is-exist error, but the
  code's check of it is embedded faithfully);
* the package-level logger variables `dbg`, `warn`, `info`, `errorl` and the
  exported toggle `Debug` form the record `LogState`;
* a `log.Logger` is its output writer, its tag and its flag bitmask;
  `Logger.Output` is modelled by the `OutputEvent` a call appends, so a
  logging function returns the list of writes it performs (empty = no-op);
* `fmt.Sprintf` is modelled by `sprintf` over `GoValue` arguments,
  supporting the verbs `%v`, `%s`, `%d` and the escape `%%`, with Go's
  `%!verb(MISSING)` / `%!(EXTRA ...)` behaviour for arity mismatches.
-/

/-- A Go `error` value: its message text and whether `os.IsExist` holds. -/
structure GoError where
  msg : String
  isExist : Bool
deriving Repr, DecidableEq

/-- A cleaned filesystem path as `path/filepath` produces it: whether it is
absolute plus its segments (no empty, no `.`; `..` only at the head of a
relative path). -/
structure GoPath where
  abs : Bool
  parts : List String
deriving Repr, DecidableEq

/-- One step of `filepath.Clean`'s element loop, on a reversed segment
stack: drop empty and `.` segments, resolve `..` against the stack (an
absolute path cannot go above the root; a relative one keeps leading
`..`s), push any other segment. -/
def cleanStep (isAbs : Bool) (stack : List String) (seg : String) : List String :=
  if seg = "" || seg = "." then stack
  else if seg = ".." then
    match stack with
    | [] => if isAbs then [] else [".."]
    | t :: rest => if t = ".." then ".." :: t :: rest else rest
  else seg :: stack

/-- `filepath.Clean` on a segment list. -/
def cleanSegs (isAbs : Bool) (segs : List String) : List String :=
  (segs.foldl (cleanStep isAbs) []).reverse

/-- Whether a raw path string is absolute (`filepath.IsAbs` on Unix: it
starts with a slash). -/
def isAbsStr (s : String) : Bool :=
  match s.data with
  | [] => false
  | c :: _ => c = '/'

/-- Split a character list on `/` (the semantics of
`strings.Split(s, "/")`). -/
def splitSlash : List Char → List (List Char)
  | [] => [[]]
  | c :: rest =>
    if c = '/' then [] :: splitSlash rest
    else
      match splitSlash rest with
      | [] => [[c]]
      | s :: ss => (c :: s) :: ss

/-- `strings.Split(s, "/")` as a list of segment strings. -/
def splitOnSlash (s : String) : List String :=
  (splitSlash s.data).map (fun l => String.mk l)

/-- Parse a raw path string (e.g. an environment variable's value) into its
cleaned `GoPath` form. -/
def parsePath (s : String) : GoPath :=
  let isAbs := isAbsStr s
  { abs := isAbs, parts := cleanSegs isAbs (splitOnSlash s) }

/-- `filepath.Join(a, b)` = `Clean(a + "/" + b)` (empty elements dropped):
the result is absolute exactly when `a` is, and its segments are the
cleaned concatenation. -/
def pathJoin (a b : GoPath) : GoPath :=
  { abs := a.abs, parts := cleanSegs a.abs (a.parts ++ b.parts) }

/-- Render a `GoPath` back to the string `filepath.Join` would return. -/
def renderPath (p : GoPath) : String :=
  if p.parts = [] then (if p.abs then "/" else "")
  else (if p.abs then "/" else "") ++ String.intercalate "/" p.parts

/-- The `const` block of jlog.go (lines 43-50). -/
def fileLog : String := "jasmd.log"

def clientsLogFile : String := "jasmd_clients.log"

def jasmDir : String := "jasm"

def xdgStateDefault : String := ".local/state"

def xdgStateEnv : String := "XDG_STATE_HOME"

instance {ε α : Type} [DecidableEq ε] [DecidableEq α] : DecidableEq (Except ε α) := fun x y =>
  match x, y with
  | .ok a, .ok b =>
    if h : a = b then .isTrue (by rw [h]) else .isFalse (fun hc => by cases hc; exact h rfl)
  | .ok _, .error _ => .isFalse (fun hc => by cases hc)
  | .error _, .ok _ => .isFalse (fun hc => by cases hc)
  | .error e, .error f =>
    if h : e = f then .isTrue (by rw [h]) else .isFalse (fun hc => by cases hc; exact h rfl)

/-- The ambient process environment: `xdgStateHome` is the result of
`os.LookupEnv(xdgStateEnv)` (`some ""` = set to the empty string, `none` =
unset), `homeDir` the result of `os.UserHomeDir()`. -/
structure Env where
  xdgStateHome : Option String
  homeDir : Except GoError String
deriving Repr, DecidableEq

/-- Mode and layout of the modelled filesystem: the directories and regular
files that exist, the paths where creating a directory is denied and the
paths where opening a file is denied (permission oracles). -/
structure FS where
  dirs : List GoPath
  files : List GoPath
  denyMkdir : List GoPath
  denyOpen : List GoPath
  mkdirCalls : List (GoPath × Nat)
deriving Repr, DecidableEq

/-- `os.MkdirAll(path, perm)`, sequential semantics: success if the
directory already exists; `ENOTDIR` (for which `os.IsExist` is false) if a
regular file occupies the path; a permission error if creation is denied;
otherwise the directory is created.  Creation of intermediate parents is
absorbed into recording the target directory.  Every call is appended to
`mkdirCalls` with its permission argument. -/
def mkdirAll (fs : FS) (p : GoPath) (perm : Nat) : Option GoError × FS :=
  let fs := { fs with mkdirCalls := fs.mkdirCalls ++ [(p, perm)] }
  if p ∈ fs.dirs then (none, fs)
  else if p ∈ fs.files then
    (some { msg := "mkdir " ++ renderPath p ++ ": not a directory", isExist := false }, fs)
  else if p ∈ fs.denyMkdir then
    (some { msg := "mkdir " ++ renderPath p ++ ": permission denied", isExist := false }, fs)
  else (none, { fs with dirs := p :: fs.dirs })

/-- The flag bits of an `os.OpenFile` call that jlog uses. -/
structure OpenFlags where
  append : Bool
  create : Bool
  wronly : Bool
deriving Repr, DecidableEq

/-- `os.O_APPEND | os.O_CREATE | os.O_WRONLY`, the combination both
openers pass. -/
def oAppendCreateWronly : OpenFlags :=
  { append := true, create := true, wronly := true }

/-- An open `*os.File` handle: the path it is open at and the flags and
permission mode it was opened with. -/
structure FileHandle where
  path : GoPath
  flags : OpenFlags
  mode : Nat
deriving Repr, DecidableEq

/-- `os.OpenFile(p, flags, mode)`: denied paths and directories fail; an
existing regular file opens in place; otherwise `O_CREATE` creates it. -/
def openFile (fs : FS) (p : GoPath) (flags : OpenFlags) (mode : Nat) :
    Except GoError FileHandle × FS :=
  if p ∈ fs.denyOpen then
    (.error { msg := "open " ++ renderPath p ++ ": permission denied", isExist := false }, fs)
  else if p ∈ fs.dirs then
    (.error { msg := "open " ++ renderPath p ++ ": is a directory", isExist := false }, fs)
  else if p ∈ fs.files then
    (.ok { path := p, flags := flags, mode := mode }, fs)
  else if flags.create then
    (.ok { path := p, flags := flags, mode := mode },
     { fs with files := p :: fs.files })
  else
    (.error { msg := "open " ++ renderPath p ++ ": no such file or directory", isExist := false }, fs)

/-- The base state directory `setStateDir` starts from (jlog.go lines
66-73): the value of `XDG_STATE_HOME` if set, otherwise
`filepath.Join(os.UserHomeDir(), ".local/state")`; a failed home-directory
lookup is wrapped with `fmt.Errorf("%v", err)`. -/
def stateBase (env : Env) : Except GoError GoPath :=
  match env.xdgStateHome with
  | some v => .ok (parsePath v)
  | none =>
    match env.homeDir with
    | .error e => .error { msg := e.msg, isExist := false }
    | .ok homeDir => .ok (pathJoin (parsePath homeDir) (parsePath xdgStateDefault))

/-- `setStateDir` (jlog.go lines 61-80): look up `XDG_STATE_HOME`; if
unset, fall back to `filepath.Join(os.UserHomeDir(), ".local/state")`;
join the application subdirectory `jasm`; `os.MkdirAll(dir, 0700)`,
treating an `os.IsExist` error as success and any other error as fatal. -/
def setStateDir (env : Env) (fs : FS) : Except GoError GoPath × FS :=
  match stateBase env with
  | .error e => (.error e, fs)
  | .ok stateDir =>
    let jasmStateDir := pathJoin stateDir (parsePath jasmDir)
    let (err, fs') := mkdirAll fs jasmStateDir 0o700
    match err with
    | some e =>
      if !e.isExist then (.error { msg := e.msg, isExist := false }, fs')
      else (.ok jasmStateDir, fs')
    | none => (.ok jasmStateDir, fs')

/-- An `io.Writer` as jlog builds them: `os.Stderr`, an open file,
`io.MultiWriter(a, b)` (jlog only ever passes two writers), or
`io.Discard`. -/
inductive JWriter where
  | stderrW : JWriter
  | fileW : GoPath → JWriter
  | multi : JWriter → JWriter → JWriter
  | discardW : JWriter
deriving Repr, DecidableEq

/-- The underlying destinations a writer fans each write out to
(`io.MultiWriter` duplicates to all its arguments, `io.Discard` to none). -/
def JWriter.dests : JWriter → List JWriter
  | .stderrW => [.stderrW]
  | .fileW p => [.fileW p]
  | .multi a b => a.dests ++ b.dests
  | .discardW => []

/-- The flag constants of Go's `log` package used by jlog. -/
def ldate : Nat := 1

def ltime : Nat := 2

def lshortfile : Nat := 16

def lstdFlags : Nat := ldate ||| ltime

/-- Whether a flag bit is set in a logger's flag bitmask. -/
def hasFlag (flags bit : Nat) : Bool := flags &&& bit != 0

/-- A `*log.Logger` as `log.New(out, tag, flags)` builds it: the output
writer, the tag printed before each line, and the metadata flag bitmask. -/
structure Logger where
  out : JWriter
  tag : String
  flags : Nat
deriving Repr, DecidableEq

/-- The package-level mutable state of jlog: the four logger variables
`dbg`, `warn`, `info`, `errorl` (nil until `InitLog` succeeds) and the
exported toggle `Debug`. -/
structure LogState where
  dbg : Option Logger
  warn : Option Logger
  info : Option Logger
  errorl : Option Logger
  Debug : Bool
deriving Repr, DecidableEq

/-- The state at process start: no logger initialized, `Debug` false. -/
def initialLogState : LogState :=
  { dbg := none, warn := none, info := none, errorl := none, Debug := false }

/-- `InitLog` (jlog.go lines 85-105): resolve the state directory, open
`jasmd.log` append/create/write-only with mode 0666, build an
`io.MultiWriter(os.Stderr, logFile)` and assign the four package-level
loggers against it.  On any failure it returns a nil handle and an error
before touching the logger variables. -/
def InitLog (env : Env) (fs : FS) (st : LogState) :
    Except GoError FileHandle × FS × LogState :=
  match setStateDir env fs with
  | (.error e, fs') => (.error { msg := e.msg, isExist := false }, fs', st)
  | (.ok stateDir, fs') =>
    let f := pathJoin stateDir (parsePath fileLog)
    match openFile fs' f oAppendCreateWronly 0o666 with
    | (.error e, fs2) =>
      (.error { msg := "open logFile: " ++ e.msg, isExist := false }, fs2, st)
    | (.ok logFile, fs2) =>
      let mw := JWriter.multi JWriter.stderrW (JWriter.fileW logFile.path)
      (.ok logFile, fs2,
       { st with
         info := some { out := mw, tag := "[jasmd] ", flags := 0 },
         warn := some { out := mw, tag := "WARNING: ", flags := ldate ||| ltime ||| lshortfile },
         dbg := some { out := mw, tag := "DEBUG: ", flags := ldate ||| ltime ||| lshortfile },
         errorl := some { out := mw, tag := "ERROR: ", flags := ldate ||| ltime ||| lshortfile } })

/-- `InitClientLog` (jlog.go lines 107-119): resolve the state directory
and open `jasmd_clients.log` append/create/write-only with mode 0666; no
logger or writer is constructed, so the logger state passes through
untouched. -/
def InitClientLog (env : Env) (fs : FS) (st : LogState) :
    Except GoError FileHandle × FS × LogState :=
  match setStateDir env fs with
  | (.error e, fs') => (.error { msg := e.msg, isExist := false }, fs', st)
  | (.ok stateDir, fs') =>
    let f := pathJoin stateDir (parsePath clientsLogFile)
    match openFile fs' f oAppendCreateWronly 0o666 with
    | (.error e, fs2) =>
      (.error { msg := "open nsmclients logFile: " ++ e.msg, isExist := false }, fs2, st)
    | (.ok logFile, fs2) => (.ok logFile, fs2, st)

/-- `ErrorLogger` (jlog.go lines 121-126): the error-level logger if
initialized, else a fresh `log.New(io.Discard, "", log.LstdFlags)`.  The
Go return type `*log.Logger` is modelled as `Option Logger` so that
never-nil is expressible; both branches return `some`. -/
def ErrorLogger (st : LogState) : Option Logger :=
  match st.errorl with
  | none => some { out := JWriter.discardW, tag := "", flags := lstdFlags }
  | some l => some l

/-- A value passed as a variadic `interface\x7b\x7d` argument to the
logging functions: jlog's callers pass strings and integers. -/
inductive GoValue where
  | str : String → GoValue
  | int : Int → GoValue
deriving Repr, DecidableEq

/-- `%v` rendering of an argument value. -/
def GoValue.render : GoValue → String
  | .str s => s
  | .int i => toString i

/-- Go's type-and-value description used in `fmt` diagnostics such as
`%!s(int=3)` and `%!(EXTRA int=3)`. -/
def GoValue.describe : GoValue → String
  | .str s => "string=" ++ s
  | .int i => "int=" ++ toString i

/-- Render one supported verb against one argument, with Go's
`%!verb(type=value)` diagnostic on a type mismatch. -/
def renderVerb (c : Char) (v : GoValue) : String :=
  match c, v with
  | 'v', v => v.render
  | 's', .str s => s
  | 'd', .int i => toString i
  | c, v => "%!" ++ c.toString ++ "(" ++ v.describe ++ ")"

/-- The spine of `fmt.Sprintf` on the template's characters: literal
characters pass through, `%%` emits `%`, a supported verb consumes the
next argument (`%!verb(MISSING)` when the arguments run out), and
leftover arguments are reported as `%!(EXTRA ...)` as `fmt` does. -/
def sprintfAux : List Char → List GoValue → List Char
  | [], [] => []
  | [], a :: rest =>
    ("%!(EXTRA " ++ String.intercalate ", " ((a :: rest).map GoValue.describe) ++ ")").data
  | ['%'], [] => "%!(NOVERB)".data
  | ['%'], a :: rest =>
    "%!(NOVERB)".data ++ sprintfAux [] (a :: rest)
  | '%' :: '%' :: cs, args => '%' :: sprintfAux cs args
  | '%' :: c :: cs, args =>
    if c = 'v' || c = 's' || c = 'd' then
      match args with
      | [] => ("%!" ++ c.toString ++ "(MISSING)").data ++ sprintfAux cs []
      | a :: rest => (renderVerb c a).data ++ sprintfAux cs rest
    else '%' :: c :: sprintfAux cs args
  | c :: cs, args => c :: sprintfAux cs args

/-- `fmt.Sprintf` restricted to the verbs `%v`, `%s`, `%d` and `%%`. -/
def sprintf (template : String) (args : List GoValue) : String :=
  ⟨sprintfAux template.data args⟩

/-- The argument-dispatch step shared by all four logging functions:
`if len(args) > 0 \x7b message = fmt.Sprintf(message, args...) \x7d`. -/
def fmtMessage (message : String) (args : List GoValue) : String :=
  if args.length > 0 then sprintf message args else message

/-- One call to `(*log.Logger).Output(calldepth, s)`: the writer the line
goes to, the logger's tag and flags (which determine the date/time and
file:line metadata in the emitted header), the calldepth, and the
formatted message. -/
structure OutputEvent where
  writer : JWriter
  tag : String
  flags : Nat
  calldepth : Nat
  msg : String
deriving Repr, DecidableEq

/-- `Debugf` (jlog.go lines 128-136): nil logger or `Debug` off is a
no-op; otherwise format and write via `dbg.Output(2, message)`.  The
returned list holds the writes the call performs. -/
def Debugf (st : LogState) (message : String) (args : List GoValue) : List OutputEvent :=
  match st.dbg with
  | none => []
  | some l =>
    if !st.Debug then []
    else
      let message := fmtMessage message args
      [{ writer := l.out, tag := l.tag, flags := l.flags, calldepth := 2, msg := message }]

/-- `Infof` (jlog.go lines 138-146): nil logger is a no-op; otherwise
format and write via `info.Output(1, msg)`. -/
def Infof (st : LogState) (msg : String) (args : List GoValue) : List OutputEvent :=
  match st.info with
  | none => []
  | some l =>
    let msg := fmtMessage msg args
    [{ writer := l.out, tag := l.tag, flags := l.flags, calldepth := 1, msg := msg }]

/-- `Warnf` (jlog.go lines 155-163): nil logger is a no-op; otherwise
format and write via `warn.Output(2, message)`. -/
def Warnf (st : LogState) (message : String) (args : List GoValue) : List OutputEvent :=
  match st.warn with
  | none => []
  | some l =>
    let message := fmtMessage message args
    [{ writer := l.out, tag := l.tag, flags := l.flags, calldepth := 2, msg := message }]

/-- `Errorf` (jlog.go lines 165-173): nil logger is a no-op; otherwise
format and write via `errorl.Output(2, message)`. -/
def Errorf (st : LogState) (message : String) (args : List GoValue) : List OutputEvent :=
  match st.errorl with
  | none => []
  | some l =>
    let message := fmtMessage message args
    [{ writer := l.out, tag := l.tag, flags := l.flags, calldepth := 2, msg := message }]

/-- Run a sequence of `InitLog` calls (one per environment snapshot),
threading the filesystem and logger state and discarding the handles. -/
def runInits (es : List Env) (fs : FS) (st : LogState) : FS × LogState :=
  match es with
  | [] => (fs, st)
  | e :: rest =>
    let r := InitLog e fs st
    runInits rest r.2.1 r.2.2

/-- Whether every `InitLog` call in the sequence fails. -/
def allInitsFail (es : List Env) (fs : FS) (st : LogState) : Bool :=
  match es with
  | [] => true
  | e :: rest =>
    match InitLog e fs st with
    | (.error _, fs', st') => allInitsFail rest fs' st'
    | (.ok _, _, _) => false

/-- The empty filesystem, used for concrete scenarios. -/
def fsEmpty : FS := { dirs := [], files := [], denyMkdir := [], denyOpen := [], mkdirCalls := [] }

/-- Resolver written from the spec's own wording (spec section 4.1 /
claim C4), to be compared with `setStateDir` from the source: read
`XDG_STATE_HOME` as the base state directory; if it is absent, use the
user's home directory joined with `.local/state`; join the base with the
application subdirectory `jasm`; create the full path with permission
mode 0700, treating "already exists" as success and any other creation
failure as an error. -/
def setStateDirSpec (env : Env) (fs : FS) : Except GoError GoPath × FS :=
  let create (base : GoPath) : Except GoError GoPath × FS :=
    let full := pathJoin base (parsePath jasmDir)
    match mkdirAll fs full 0o700 with
    | (some e, fs') =>
      if e.isExist then (.ok full, fs')
      else (.error { msg := e.msg, isExist := false }, fs')
    | (none, fs') => (.ok full, fs')
  match env.xdgStateHome with
  | some v => create (parsePath v)
  | none =>
    match env.homeDir with
    | .error e => (.error { msg := e.msg, isExist := false }, fs)
    | .ok hd => create (pathJoin (parsePath hd) (parsePath xdgStateDefault))

/-!  Helper lemmas about `InitLog` and init sequences. -/

/-- A failing `InitLog` returns before assigning any logger, so the logger
state that was in force before the call is still in force after it. -/
theorem initLog_error_frame (env : Env) (fs : FS) (st : LogState) (e : GoError)
    (h : (InitLog env fs st).1 = .error e) : (InitLog env fs st).2.2 = st := by
  unfold InitLog at h ⊢
  rcases hsd : setStateDir env fs with ⟨r, fs'⟩
  rw [hsd] at h
  cases r with
  | error e1 => rfl
  | ok sd =>
    simp only [] at h ⊢
    rcases hof : openFile fs' (pathJoin sd (parsePath fileLog)) oAppendCreateWronly 0o666
      with ⟨r2, fs2⟩
    rw [hof] at h
    cases r2 with
    | error e2 => rfl
    | ok lf => simp at h

/-- A successful `InitLog` overwrites the four logger variables with fresh
instances over `io.MultiWriter(os.Stderr, logFile)` and leaves the rest of
the state (the `Debug` toggle) alone. -/
theorem initLog_ok_shape (env : Env) (fs : FS) (st : LogState) (lf : FileHandle)
    (h : (InitLog env fs st).1 = .ok lf) :
    (InitLog env fs st).2.2 =
      { st with
        info := some { out := JWriter.multi JWriter.stderrW (JWriter.fileW lf.path),
                       tag := "[jasmd] ", flags := 0 },
        warn := some { out := JWriter.multi JWriter.stderrW (JWriter.fileW lf.path),
                       tag := "WARNING: ", flags := ldate ||| ltime ||| lshortfile },
        dbg := some { out := JWriter.multi JWriter.stderrW (JWriter.fileW lf.path),
                      tag := "DEBUG: ", flags := ldate ||| ltime ||| lshortfile },
        errorl := some { out := JWriter.multi JWriter.stderrW (JWriter.fileW lf.path),
                         tag := "ERROR: ", flags := ldate ||| ltime ||| lshortfile } } := by
  unfold InitLog at h ⊢
  rcases hsd : setStateDir env fs with ⟨r, fs'⟩
  rw [hsd] at h
  cases r with
  | error e1 => simp at h
  | ok sd =>
    simp only [] at h ⊢
    rcases hof : openFile fs' (pathJoin sd (parsePath fileLog)) oAppendCreateWronly 0o666
      with ⟨r2, fs2⟩
    rw [hof] at h
    cases r2 with
    | error e2 => simp at h
    | ok lf2 =>
      simp at h
      subst h
      rfl

/-- If every `InitLog` call in a sequence fails, running the sequence
leaves the logger state where it started. -/
theorem runInits_allFail (es : List Env) (fs : FS) (st : LogState)
    (h : allInitsFail es fs st = true) : (runInits es fs st).2 = st := by
  induction es generalizing fs st with
  | nil => rfl
  | cons e rest ih =>
    unfold allInitsFail at h
    unfold runInits
    rcases hr : InitLog e fs st with ⟨r, fs', st'⟩
    rw [hr] at h
    cases r with
    | ok lf => simp at h
    | error e1 =>
      have hframe : st' = st := by
        have hfr := initLog_error_frame e fs st e1 (by rw [hr])
        rw [hr] at hfr
        exact hfr
      simp only [] at h
      simp only []
      rw [(ih fs' st' h : (runInits rest fs' st').2 = st')]
      exact hframe

/-!  Helper lemmas about the path model. -/

theorem cleanStep_push (a : Bool) (S : List String) (s : String)
    (h1 : s ≠ "") (h2 : s ≠ ".") (h3 : s ≠ "..") : cleanStep a S s = s :: S := by
  unfold cleanStep
  simp [h1, h2, h3]

theorem cleanSegs_append_single (a : Bool) (xs : List String) (s : String)
    (h1 : s ≠ "") (h2 : s ≠ ".") (h3 : s ≠ "..") :
    cleanSegs a (xs ++ [s]) = cleanSegs a xs ++ [s] := by
  unfold cleanSegs
  rw [List.foldl_append]
  simp [cleanStep_push a _ s h1 h2 h3]

theorem pathJoin_abs (b q : GoPath) : (pathJoin b q).abs = b.abs := rfl

theorem pathJoin_single_parts (b : GoPath) (s : String)
    (h1 : s ≠ "") (h2 : s ≠ ".") (h3 : s ≠ "..") :
    (pathJoin b ⟨false, [s]⟩).parts = cleanSegs b.abs b.parts ++ [s] := by
  unfold pathJoin
  exact cleanSegs_append_single b.abs b.parts s h1 h2 h3

theorem pathJoin_single_getLast (b : GoPath) (s : String)
    (h1 : s ≠ "") (h2 : s ≠ ".") (h3 : s ≠ "..") :
    (pathJoin b ⟨false, [s]⟩).parts.getLast? = some s := by
  rw [pathJoin_single_parts b s h1 h2 h3]
  exact List.getLast?_concat _

/-!  Helper lemmas about the filesystem model. -/

theorem mkdirAll_some_not_isExist (fs : FS) (p : GoPath) (perm : Nat) (e : GoError)
    (h : (mkdirAll fs p perm).1 = some e) : e.isExist = false := by
  unfold mkdirAll at h
  by_cases h1 : p ∈ fs.dirs
  · simp [h1] at h
  · by_cases h2 : p ∈ fs.files
    · simp [h1, h2] at h
      rw [← h]
    · by_cases h3 : p ∈ fs.denyMkdir
      · simp [h1, h2, h3] at h
        rw [← h]
      · simp [h1, h2, h3] at h

theorem mkdirAll_none_mem (fs : FS) (p : GoPath) (perm : Nat)
    (h : (mkdirAll fs p perm).1 = none) : p ∈ (mkdirAll fs p perm).2.dirs := by
  unfold mkdirAll at h ⊢
  by_cases h1 : p ∈ fs.dirs
  · simp [h1]
  · by_cases h2 : p ∈ fs.files
    · simp [h1, h2] at h
    · by_cases h3 : p ∈ fs.denyMkdir
      · simp [h1, h2, h3] at h
      · simp [h1, h2, h3]

/-- Shape of a successful `setStateDir`: the base resolved, the result is
the base joined with `jasm`, and the directory is present afterwards. -/
theorem setStateDir_ok_shape (env : Env) (fs : FS) (p : GoPath)
    (h : (setStateDir env fs).1 = .ok p) :
    (∃ b, stateBase env = .ok b ∧ p = pathJoin b (parsePath jasmDir)) ∧
    p ∈ (setStateDir env fs).2.dirs := by
  unfold setStateDir at h ⊢
  cases hb : stateBase env with
  | error e => rw [hb] at h; simp at h
  | ok b =>
    rw [hb] at h
    simp only [] at h ⊢
    rcases hmk2 : mkdirAll fs (pathJoin b (parsePath jasmDir)) 0o700 with ⟨err, fs'⟩
    rw [hmk2] at h
    cases err with
    | none =>
      simp at h
      subst h
      refine ⟨⟨b, rfl, rfl⟩, ?_⟩
      have hm := mkdirAll_none_mem fs (pathJoin b (parsePath jasmDir)) 0o700 (by rw [hmk2])
      rw [hmk2] at hm
      simpa using hm
    | some e =>
      have hex := mkdirAll_some_not_isExist fs (pathJoin b (parsePath jasmDir)) 0o700 e
        (by rw [hmk2])
      simp [hex] at h

/-!  The claims. -/

/-- C4 (confirmed): `setStateDir` computes exactly the algorithm the spec
describes (`setStateDirSpec`), and in the concrete scenario with the
override unset and home directory `/home/u` it resolves
`/home/u/.local/state/jasm`, created by a single `MkdirAll` call with
permission mode 0700. -/
theorem setStateDir_matches_spec_algorithm :
    (∀ env fs, setStateDir env fs = setStateDirSpec env fs) ∧
    (setStateDir { xdgStateHome := none, homeDir := .ok "/home/u" } fsEmpty).1 =
      .ok (parsePath "/home/u/.local/state/jasm") ∧
    renderPath (parsePath "/home/u/.local/state/jasm") = "/home/u/.local/state/jasm" ∧
    (setStateDir { xdgStateHome := none, homeDir := .ok "/home/u" } fsEmpty).2.mkdirCalls =
      [(parsePath "/home/u/.local/state/jasm", 0o700)] := by
  refine ⟨?_, by decide, by decide, by decide⟩
  intro env fs
  unfold setStateDir setStateDirSpec stateBase
  cases hx : env.xdgStateHome with
  | some v =>
    simp only []
    rcases hmk : mkdirAll fs (pathJoin (parsePath v) (parsePath jasmDir)) 0o700 with ⟨err, fs'⟩
    cases err with
    | none => rfl
    | some e => cases he : e.isExist <;> simp [he]
  | none =>
    cases hh : env.homeDir with
    | error e => rfl
    | ok hd =>
      simp only []
      rcases hmk : mkdirAll fs
          (pathJoin (pathJoin (parsePath hd) (parsePath xdgStateDefault)) (parsePath jasmDir))
          0o700 with ⟨err, fs'⟩
      cases err with
      | none => rfl
      | some e => cases he : e.isExist <;> simp [he]

/-- C3 fails as stated: with `XDG_STATE_HOME` present but set to the empty
string, `setStateDir` succeeds yet returns the relative path `jasm` — not
an absolute path. -/
theorem setStateDir_not_always_absolute :
    (setStateDir { xdgStateHome := some "", homeDir := .ok "/home/u" } fsEmpty).1 =
      .ok { abs := false, parts := ["jasm"] } ∧
    ({ abs := false, parts := ["jasm"] } : GoPath).abs = false ∧
    renderPath { abs := false, parts := ["jasm"] } = "jasm" := by
  refine ⟨by decide, rfl, by decide⟩

/-- C3 amended: whenever `setStateDir` returns without error, the returned
path ends with the fixed application-name segment `jasm` and the directory
exists in the filesystem state at that moment; the path is absolute
exactly when the configured base (the override's value when set, otherwise
the home-directory fallback) is an absolute path. -/
theorem setStateDir_ok_ends_jasm_exists (env : Env) (fs : FS) (p : GoPath)
    (h : (setStateDir env fs).1 = .ok p) :
    p.parts.getLast? = some jasmDir ∧
    p ∈ (setStateDir env fs).2.dirs ∧
    ∃ b, stateBase env = .ok b ∧ p.abs = b.abs := by
  obtain ⟨⟨b, hb, hp⟩, hmem⟩ := setStateDir_ok_shape env fs p h
  subst hp
  refine ⟨?_, hmem, ⟨b, hb, rfl⟩⟩
  have hj : parsePath jasmDir = ⟨false, ["jasm"]⟩ := by decide
  rw [hj]
  exact pathJoin_single_getLast b "jasm" (by decide) (by decide) (by decide)

theorem setStateDir_ok_ends_jasm_exists_witness :
    (setStateDir { xdgStateHome := none, homeDir := .ok "/home/u" } fsEmpty).1 =
      .ok { abs := true, parts := ["home", "u", ".local", "state", "jasm"] } ∧
    (({ abs := true, parts := ["home", "u", ".local", "state", "jasm"] } : GoPath).parts.getLast? =
        some jasmDir ∧
      ({ abs := true, parts := ["home", "u", ".local", "state", "jasm"] } : GoPath) ∈
        (setStateDir { xdgStateHome := none, homeDir := .ok "/home/u" } fsEmpty).2.dirs ∧
      ∃ b, stateBase { xdgStateHome := none, homeDir := .ok "/home/u" } = .ok b ∧
        ({ abs := true, parts := ["home", "u", ".local", "state", "jasm"] } : GoPath).abs = b.abs) :=
  ⟨by decide,
   setStateDir_ok_ends_jasm_exists { xdgStateHome := none, homeDir := .ok "/home/u" } fsEmpty
     { abs := true, parts := ["home", "u", ".local", "state", "jasm"] } (by decide)⟩

/-- C10 (confirmed): whenever `XDG_STATE_HOME` is present — including
present with the empty string as its value — `setStateDir` uses that value
as the base and never consults the home directory (the result is the same
for any home-directory outcome); with the empty string as value the result
is the relative path `jasm`. -/
theorem xdg_override_used_even_when_empty :
    (∀ (v : String) (h1 h2 : Except GoError String) (fs : FS),
      setStateDir { xdgStateHome := some v, homeDir := h1 } fs =
        setStateDir { xdgStateHome := some v, homeDir := h2 } fs) ∧
    (setStateDir { xdgStateHome := some "", homeDir := .ok "/home/u" } fsEmpty).1 =
      .ok { abs := false, parts := ["jasm"] } ∧
    renderPath { abs := false, parts := ["jasm"] } = "jasm" ∧
    ({ abs := false, parts := ["jasm"] } : GoPath).abs = false := by
  refine ⟨?_, by decide, by decide, rfl⟩
  intro v h1 h2 fs
  rfl

/-- C1 (confirmed): if the logger instances have not been initialized —
`InitLog` never called, or every call to it failed — then for every
message template, argument list and debug-toggle setting, each of
`Debugf`, `Infof`, `Warnf` and `Errorf` performs no write at all: the call
is total (no error, no panic in the model) and its output-event list is
empty, so nothing reaches standard error or any file. -/
theorem uninitialized_logging_is_noop (es : List Env) (fs : FS) (d : Bool)
    (m : String) (args : List GoValue)
    (h : allInitsFail es fs { initialLogState with Debug := d } = true) :
    Debugf (runInits es fs { initialLogState with Debug := d }).2 m args = [] ∧
    Infof (runInits es fs { initialLogState with Debug := d }).2 m args = [] ∧
    Warnf (runInits es fs { initialLogState with Debug := d }).2 m args = [] ∧
    Errorf (runInits es fs { initialLogState with Debug := d }).2 m args = [] := by
  rw [runInits_allFail es fs _ h]
  exact ⟨rfl, rfl, rfl, rfl⟩

theorem uninitialized_logging_is_noop_witness :
    allInitsFail [{ xdgStateHome := none, homeDir := .error { msg := "no home", isExist := false } }]
        fsEmpty { initialLogState with Debug := true } = true ∧
    (Debugf (runInits
        [{ xdgStateHome := none, homeDir := .error { msg := "no home", isExist := false } }]
        fsEmpty { initialLogState with Debug := true }).2 "x%d" [.int 7] = [] ∧
      Infof (runInits
        [{ xdgStateHome := none, homeDir := .error { msg := "no home", isExist := false } }]
        fsEmpty { initialLogState with Debug := true }).2 "x%d" [.int 7] = [] ∧
      Warnf (runInits
        [{ xdgStateHome := none, homeDir := .error { msg := "no home", isExist := false } }]
        fsEmpty { initialLogState with Debug := true }).2 "x%d" [.int 7] = [] ∧
      Errorf (runInits
        [{ xdgStateHome := none, homeDir := .error { msg := "no home", isExist := false } }]
        fsEmpty { initialLogState with Debug := true }).2 "x%d" [.int 7] = []) :=
  ⟨by decide,
   uninitialized_logging_is_noop
     [{ xdgStateHome := none, homeDir := .error { msg := "no home", isExist := false } }]
     fsEmpty true "x%d" [.int 7] (by decide)⟩

/-- C2 fails as stated: when an `InitLog` call fails after an earlier
successful one, the previous logger instances are left initialized, so a
subsequent `Infof` call still writes output instead of being a no-op.
Concretely: a successful `InitLog` under `XDG_STATE_HOME=/s`, then a
failing `InitLog` (home-directory lookup fails), after which
`Infof "x"` emits an event. -/
theorem initLog_failure_after_success_not_inert :
    ((InitLog { xdgStateHome := some "/s", homeDir := .ok "/home/u" } fsEmpty
        initialLogState).1 =
      .ok { path := { abs := true, parts := ["s", "jasm", "jasmd.log"] },
            flags := oAppendCreateWronly, mode := 0o666 }) ∧
    ((InitLog { xdgStateHome := none, homeDir := .error { msg := "user: lookup failed", isExist := false } }
        (InitLog { xdgStateHome := some "/s", homeDir := .ok "/home/u" } fsEmpty
          initialLogState).2.1
        (InitLog { xdgStateHome := some "/s", homeDir := .ok "/home/u" } fsEmpty
          initialLogState).2.2).1 =
      .error { msg := "user: lookup failed", isExist := false }) ∧
    Infof ((InitLog { xdgStateHome := none, homeDir := .error { msg := "user: lookup failed", isExist := false } }
        (InitLog { xdgStateHome := some "/s", homeDir := .ok "/home/u" } fsEmpty
          initialLogState).2.1
        (InitLog { xdgStateHome := some "/s", homeDir := .ok "/home/u" } fsEmpty
          initialLogState).2.2).2.2) "x" [] ≠ [] := by
  refine ⟨by decide, by decide, by decide⟩

/-- C2 amended: every failing `InitLog` call returns no handle together
with an error and leaves the process-wide logger state exactly as it was
before the call.  Hence after a failing first call (or any sequence of
only-failing calls) the logging API stays inert, while after an earlier
successful call the previously installed instances remain active. -/
theorem initLog_failure_error_and_state_unchanged (env : Env) (fs : FS) (st : LogState)
    (e : GoError) (h : (InitLog env fs st).1 = .error e) :
    (InitLog env fs st).2.2 = st ∧
    (st.dbg = none → ∀ m args, Debugf (InitLog env fs st).2.2 m args = []) ∧
    (st.info = none → ∀ m args, Infof (InitLog env fs st).2.2 m args = []) ∧
    (st.warn = none → ∀ m args, Warnf (InitLog env fs st).2.2 m args = []) ∧
    (st.errorl = none → ∀ m args, Errorf (InitLog env fs st).2.2 m args = []) := by
  have hframe := initLog_error_frame env fs st e h
  rw [hframe]
  refine ⟨rfl, ?_, ?_, ?_, ?_⟩ <;>
    · intro hnone m args
      simp [Debugf, Infof, Warnf, Errorf, hnone]

theorem initLog_failure_error_and_state_unchanged_witness :
    ((InitLog { xdgStateHome := none, homeDir := .error { msg := "boom", isExist := false } }
        fsEmpty initialLogState).1 = .error { msg := "boom", isExist := false }) ∧
    ((InitLog { xdgStateHome := none, homeDir := .error { msg := "boom", isExist := false } }
        fsEmpty initialLogState).2.2 = initialLogState ∧
      (initialLogState.dbg = none → ∀ m args,
        Debugf (InitLog { xdgStateHome := none, homeDir := .error { msg := "boom", isExist := false } }
          fsEmpty initialLogState).2.2 m args = []) ∧
      (initialLogState.info = none → ∀ m args,
        Infof (InitLog { xdgStateHome := none, homeDir := .error { msg := "boom", isExist := false } }
          fsEmpty initialLogState).2.2 m args = []) ∧
      (initialLogState.warn = none → ∀ m args,
        Warnf (InitLog { xdgStateHome := none, homeDir := .error { msg := "boom", isExist := false } }
          fsEmpty initialLogState).2.2 m args = []) ∧
      (initialLogState.errorl = none → ∀ m args,
        Errorf (InitLog { xdgStateHome := none, homeDir := .error { msg := "boom", isExist := false } }
          fsEmpty initialLogState).2.2 m args = [])) :=
  ⟨by decide,
   initLog_failure_error_and_state_unchanged
     { xdgStateHome := none, homeDir := .error { msg := "boom", isExist := false } }
     fsEmpty initialLogState { msg := "boom", isExist := false } (by decide)⟩

/-- C5 (confirmed): after every successful `InitLog` — including a second
or later call, whose fresh instances replace the previous ones since the
conclusion depends only on this call's handle — all four logger instances
are non-nil and bound to `io.MultiWriter(os.Stderr, logFile)`, which fans
every write out to standard error and the newly opened log file; the info
logger carries the fixed tag and no date/time/source-location flags, while
the warning, debug and error loggers carry a tag plus the date, time and
short-file flags; consequently every log call through the new state
emits its message through that two-destination writer. -/
theorem initLog_success_wires_loggers (env : Env) (fs : FS) (st : LogState)
    (lf : FileHandle) (h : (InitLog env fs st).1 = .ok lf) :
    ((InitLog env fs st).2.2).info =
      some { out := JWriter.multi JWriter.stderrW (JWriter.fileW lf.path),
             tag := "[jasmd] ", flags := 0 } ∧
    ((InitLog env fs st).2.2).warn =
      some { out := JWriter.multi JWriter.stderrW (JWriter.fileW lf.path),
             tag := "WARNING: ", flags := ldate ||| ltime ||| lshortfile } ∧
    ((InitLog env fs st).2.2).dbg =
      some { out := JWriter.multi JWriter.stderrW (JWriter.fileW lf.path),
             tag := "DEBUG: ", flags := ldate ||| ltime ||| lshortfile } ∧
    ((InitLog env fs st).2.2).errorl =
      some { out := JWriter.multi JWriter.stderrW (JWriter.fileW lf.path),
             tag := "ERROR: ", flags := ldate ||| ltime ||| lshortfile } ∧
    (hasFlag 0 ldate = false ∧ hasFlag 0 ltime = false ∧ hasFlag 0 lshortfile = false) ∧
    (hasFlag (ldate ||| ltime ||| lshortfile) ldate = true ∧
      hasFlag (ldate ||| ltime ||| lshortfile) ltime = true ∧
      hasFlag (ldate ||| ltime ||| lshortfile) lshortfile = true) ∧
    (JWriter.multi JWriter.stderrW (JWriter.fileW lf.path)).dests =
      [JWriter.stderrW, JWriter.fileW lf.path] ∧
    (∀ m args, Infof (InitLog env fs st).2.2 m args =
      [{ writer := JWriter.multi JWriter.stderrW (JWriter.fileW lf.path),
         tag := "[jasmd] ", flags := 0, calldepth := 1, msg := fmtMessage m args }]) ∧
    (∀ m args, Warnf (InitLog env fs st).2.2 m args =
      [{ writer := JWriter.multi JWriter.stderrW (JWriter.fileW lf.path),
         tag := "WARNING: ", flags := ldate ||| ltime ||| lshortfile, calldepth := 2,
         msg := fmtMessage m args }]) ∧
    (∀ m args, Errorf (InitLog env fs st).2.2 m args =
      [{ writer := JWriter.multi JWriter.stderrW (JWriter.fileW lf.path),
         tag := "ERROR: ", flags := ldate ||| ltime ||| lshortfile, calldepth := 2,
         msg := fmtMessage m args }]) := by
  rw [initLog_ok_shape env fs st lf h]
  refine ⟨rfl, rfl, rfl, rfl, by decide, by decide, rfl, ?_, ?_, ?_⟩ <;>
    · intro m args
      rfl

theorem initLog_success_wires_loggers_witness :
    ((InitLog { xdgStateHome := some "/s", homeDir := .ok "/h" } fsEmpty initialLogState).1 =
      .ok { path := { abs := true, parts := ["s", "jasm", "jasmd.log"] },
            flags := oAppendCreateWronly, mode := 0o666 }) ∧
    ((InitLog { xdgStateHome := some "/s", homeDir := .ok "/h" } fsEmpty
        initialLogState).2.2).info =
      some { out := JWriter.multi JWriter.stderrW
               (JWriter.fileW { abs := true, parts := ["s", "jasm", "jasmd.log"] }),
             tag := "[jasmd] ", flags := 0 } :=
  ⟨by decide,
   (initLog_success_wires_loggers { xdgStateHome := some "/s", homeDir := .ok "/h" }
     fsEmpty initialLogState
     { path := { abs := true, parts := ["s", "jasm", "jasmd.log"] },
       flags := oAppendCreateWronly, mode := 0o666 } (by decide)).1⟩

/-- C6 (confirmed): for each of the four logging functions, a call with
zero variadic arguments emits the template verbatim (even if it contains
substitution markers), and a call with one or more arguments emits the
printf-style formatting of the template with those arguments
(`fmtMessage`, which is `fmt.Sprintf` exactly when `len(args) > 0`). -/
theorem logging_formats_printf_style (st : LogState) (m : String) (args : List GoValue) :
    (args = [] → fmtMessage m args = m) ∧
    (args ≠ [] → fmtMessage m args = sprintf m args) ∧
    (∀ l, st.dbg = some l → st.Debug = true →
      Debugf st m args =
        [{ writer := l.out, tag := l.tag, flags := l.flags, calldepth := 2,
           msg := fmtMessage m args }]) ∧
    (∀ l, st.info = some l →
      Infof st m args =
        [{ writer := l.out, tag := l.tag, flags := l.flags, calldepth := 1,
           msg := fmtMessage m args }]) ∧
    (∀ l, st.warn = some l →
      Warnf st m args =
        [{ writer := l.out, tag := l.tag, flags := l.flags, calldepth := 2,
           msg := fmtMessage m args }]) ∧
    (∀ l, st.errorl = some l →
      Errorf st m args =
        [{ writer := l.out, tag := l.tag, flags := l.flags, calldepth := 2,
           msg := fmtMessage m args }]) := by
  refine ⟨?_, ?_, ?_, ?_, ?_, ?_⟩
  · intro ha
    subst ha
    rfl
  · intro ha
    unfold fmtMessage
    cases args with
    | nil => exact absurd rfl ha
    | cons a rest => simp
  · intro l hl hd
    simp [Debugf, hl, hd]
  · intro l hl
    simp [Infof, hl]
  · intro l hl
    simp [Warnf, hl]
  · intro l hl
    simp [Errorf, hl]

theorem logging_formats_printf_style_witness :
    Infof { dbg := none, warn := none,
            info := some { out := JWriter.stderrW, tag := "[jasmd] ", flags := 0 },
            errorl := none, Debug := false } "a:%d b:%s c" [.int 4, .str "z"] =
      [{ writer := JWriter.stderrW, tag := "[jasmd] ", flags := 0, calldepth := 1,
         msg := "a:4 b:z c" }] ∧
    Infof { dbg := none, warn := none,
            info := some { out := JWriter.stderrW, tag := "[jasmd] ", flags := 0 },
            errorl := none, Debug := false } "verbatim %d" [] =
      [{ writer := JWriter.stderrW, tag := "[jasmd] ", flags := 0, calldepth := 1,
         msg := "verbatim %d" }] :=
  ⟨((logging_formats_printf_style
      { dbg := none, warn := none,
        info := some { out := JWriter.stderrW, tag := "[jasmd] ", flags := 0 },
        errorl := none, Debug := false } "a:%d b:%s c" [.int 4, .str "z"]).2.2.2.1
      { out := JWriter.stderrW, tag := "[jasmd] ", flags := 0 } rfl).trans (by decide),
   ((logging_formats_printf_style
      { dbg := none, warn := none,
        info := some { out := JWriter.stderrW, tag := "[jasmd] ", flags := 0 },
        errorl := none, Debug := false } "verbatim %d" []).2.2.2.1
      { out := JWriter.stderrW, tag := "[jasmd] ", flags := 0 } rfl).trans (by decide)⟩

/-- C7 (confirmed): `Debugf` produces no output whenever the `Debug`
toggle is false, regardless of initialization state; with the toggle true
after a successful `InitLog` it does write; and the toggle gates only the
debug level — `Infof`, `Warnf` and `Errorf` are unaffected by its value. -/
theorem debug_toggle_gates_only_debug (st : LogState) (m : String) (args : List GoValue) :
    (st.Debug = false → Debugf st m args = []) ∧
    (∀ env fs lf, (InitLog env fs st).1 = .ok lf →
      ((InitLog env fs st).2.2).Debug = true →
      Debugf (InitLog env fs st).2.2 m args ≠ []) ∧
    (∀ b, Infof { st with Debug := b } m args = Infof st m args) ∧
    (∀ b, Warnf { st with Debug := b } m args = Warnf st m args) ∧
    (∀ b, Errorf { st with Debug := b } m args = Errorf st m args) := by
  refine ⟨?_, ?_, fun b => rfl, fun b => rfl, fun b => rfl⟩
  · intro hoff
    cases hd : st.dbg <;> simp [Debugf, hd, hoff]
  · intro env fs lf hok htog
    rw [initLog_ok_shape env fs st lf hok] at htog ⊢
    simp at htog
    simp [Debugf, htog]

theorem debug_toggle_gates_only_debug_witness :
    ((InitLog { xdgStateHome := some "/s", homeDir := .ok "/h" } fsEmpty
        { initialLogState with Debug := true }).1 =
      .ok { path := { abs := true, parts := ["s", "jasm", "jasmd.log"] },
            flags := oAppendCreateWronly, mode := 0o666 }) ∧
    ((InitLog { xdgStateHome := some "/s", homeDir := .ok "/h" } fsEmpty
        { initialLogState with Debug := true }).2.2).Debug = true ∧
    Debugf ((InitLog { xdgStateHome := some "/s", homeDir := .ok "/h" } fsEmpty
        { initialLogState with Debug := true }).2.2) "x" [] ≠ [] :=
  ⟨by decide, by decide,
   (debug_toggle_gates_only_debug { initialLogState with Debug := true } "x" []).2.1
     { xdgStateHome := some "/s", homeDir := .ok "/h" } fsEmpty
     { path := { abs := true, parts := ["s", "jasm", "jasmd.log"] },
       flags := oAppendCreateWronly, mode := 0o666 } (by decide) (by decide)⟩

/-- C8 (confirmed): `ErrorLogger` never returns a nil reference: in every
state it returns some leveled-logger value — the initialized error-level
instance when one exists, and otherwise a degenerate
`log.New(io.Discard, "", log.LstdFlags)` instance whose writer has no
destinations, so all input is discarded and callers need no presence
check. -/
theorem errorLogger_never_nil (st : LogState) :
    (ErrorLogger st).isSome = true ∧
    (∀ l, st.errorl = some l → ErrorLogger st = some l) ∧
    (st.errorl = none →
      ErrorLogger st = some { out := JWriter.discardW, tag := "", flags := lstdFlags } ∧
      JWriter.dests JWriter.discardW = []) := by
  refine ⟨?_, ?_, ?_⟩
  · cases he : st.errorl <;> simp [ErrorLogger, he]
  · intro l hl
    simp [ErrorLogger, hl]
  · intro hn
    exact ⟨by simp [ErrorLogger, hn], rfl⟩

theorem errorLogger_never_nil_witness :
    (ErrorLogger initialLogState).isSome = true ∧
    (ErrorLogger initialLogState =
        some { out := JWriter.discardW, tag := "", flags := lstdFlags } ∧
      JWriter.dests JWriter.discardW = []) :=
  ⟨(errorLogger_never_nil initialLogState).1,
   (errorLogger_never_nil initialLogState).2.2 rfl⟩

/-- A successful `openFile` returns exactly the handle for the requested
path, flags and mode. -/
theorem openFile_ok_shape (fs : FS) (p : GoPath) (flags : OpenFlags) (mode : Nat)
    (lf : FileHandle) (h : (openFile fs p flags mode).1 = .ok lf) :
    lf = { path := p, flags := flags, mode := mode } := by
  unfold openFile at h
  by_cases h1 : p ∈ fs.denyOpen
  · simp [h1] at h
  · by_cases h2 : p ∈ fs.dirs
    · simp [h1, h2] at h
    · by_cases h3 : p ∈ fs.files
      · simp [h1, h2, h3] at h
        exact h.symm
      · by_cases h4 : flags.create = true
        · simp [h1, h2, h3, h4] at h
          exact h.symm
        · simp [h1, h2, h3, h4] at h

/-- C9 (confirmed): `InitClientLog` resolves the state directory and opens
(append, create-if-absent, write-only, mode 0666) the file with the
distinct fixed name `jasmd_clients.log` under it, returning only the
handle or an error, and leaves the process-wide logger state — all four
instances and the `Debug` toggle — exactly as it was before the call. -/
theorem initClientLog_opens_only (env : Env) (fs : FS) (st : LogState) :
    (InitClientLog env fs st).2.2 = st ∧
    (∀ lf, (InitClientLog env fs st).1 = .ok lf →
      lf.flags = oAppendCreateWronly ∧ lf.mode = 0o666 ∧
      lf.path.parts.getLast? = some clientsLogFile ∧
      ∃ sd, (setStateDir env fs).1 = .ok sd ∧
        lf.path = pathJoin sd (parsePath clientsLogFile)) ∧
    clientsLogFile ≠ fileLog := by
  refine ⟨?_, ?_, by decide⟩
  · unfold InitClientLog
    rcases hsd : setStateDir env fs with ⟨r, fs'⟩
    cases r with
    | error e => rfl
    | ok sd =>
      simp only []
      rcases hof : openFile fs' (pathJoin sd (parsePath clientsLogFile))
          oAppendCreateWronly 0o666 with ⟨r2, fs2⟩
      cases r2 with
      | error e2 => rfl
      | ok lf2 => rfl
  · intro lf hok
    unfold InitClientLog at hok
    rcases hsd : setStateDir env fs with ⟨r, fs'⟩
    rw [hsd] at hok
    cases r with
    | error e => simp at hok
    | ok sd =>
      simp only [] at hok
      rcases hof : openFile fs' (pathJoin sd (parsePath clientsLogFile))
          oAppendCreateWronly 0o666 with ⟨r2, fs2⟩
      rw [hof] at hok
      cases r2 with
      | error e2 => simp at hok
      | ok lf2 =>
        simp at hok
        subst hok
        have hshape := openFile_ok_shape fs' (pathJoin sd (parsePath clientsLogFile))
          oAppendCreateWronly 0o666 lf2 (by rw [hof])
        subst hshape
        refine ⟨rfl, rfl, ?_, ⟨sd, rfl, rfl⟩⟩
        have hc : parsePath clientsLogFile = ⟨false, ["jasmd_clients.log"]⟩ := by decide
        rw [hc]
        exact pathJoin_single_getLast sd "jasmd_clients.log" (by decide) (by decide) (by decide)

theorem initClientLog_opens_only_witness :
    ((InitClientLog { xdgStateHome := some "/s", homeDir := .ok "/h" } fsEmpty
        initialLogState).1 =
      .ok { path := { abs := true, parts := ["s", "jasm", "jasmd_clients.log"] },
            flags := oAppendCreateWronly, mode := 0o666 }) ∧
    ((InitClientLog { xdgStateHome := some "/s", homeDir := .ok "/h" } fsEmpty
        initialLogState).2.2 = initialLogState) ∧
    ({ path := { abs := true, parts := ["s", "jasm", "jasmd_clients.log"] },
       flags := oAppendCreateWronly, mode := 0o666 } : FileHandle).flags =
        oAppendCreateWronly ∧
    ∃ sd, (setStateDir { xdgStateHome := some "/s", homeDir := .ok "/h" } fsEmpty).1 =
        .ok sd ∧
      ({ path := { abs := true, parts := ["s", "jasm", "jasmd_clients.log"] },
         flags := oAppendCreateWronly, mode := 0o666 } : FileHandle).path =
        pathJoin sd (parsePath clientsLogFile) :=
  ⟨by decide,
   (initClientLog_opens_only { xdgStateHome := some "/s", homeDir := .ok "/h" } fsEmpty
     initialLogState).1,
   ((initClientLog_opens_only { xdgStateHome := some "/s", homeDir := .ok "/h" } fsEmpty
     initialLogState).2.1
     { path := { abs := true, parts := ["s", "jasm", "jasmd_clients.log"] },
       flags := oAppendCreateWronly, mode := 0o666 } (by decide)).1,
   ((initClientLog_opens_only { xdgStateHome := some "/s", homeDir := .ok "/h" } fsEmpty
     initialLogState).2.1
     { path := { abs := true, parts := ["s", "jasm", "jasmd_clients.log"] },
       flags := oAppendCreateWronly, mode := 0o666 } (by decide)).2.2.2⟩
